import Mathlib

/-!
# Verification of the ytdownloader job-scheduling, caching and deferred-task core

Shallow embedding of the relevant parts of `src/ytdlp_wrapper/` (pending.py,
metadata_cache.py, sponsorblock_local.py, downloader.py) together with proofs
that settle the specification claims about them.

Conventions used throughout:
* Pure Python functions become Lean functions over the same data.
* File-system state touched by a function is passed explicitly (the contents
  of the one file the function reads/writes, as an `Option` for presence).
* Python exceptions that a function can raise to its caller are represented
  by `Except`/explicit result flags; exceptions that the function catches
  internally never appear in the result type.
* Python `str` becomes `String`; machine floats in SponsorBlock segment
  endpoints become `ℚ` (only ordering comparisons and verbatim copies of
  segment endpoints occur in the embedded code, so no float rounding is
  observable).
-/

namespace Ytdl

/-! ## Embedding of `src/ytdlp_wrapper/pending.py` -/

/-- Embeds `pending.PENDING_TASK_SPONSORBLOCK` (pending.py:39). -/
def PENDING_TASK_SPONSORBLOCK : String := "sponsorblock"

/-- The JSON object stored in a `.pending.json` sidecar, as read back by
`_load_sidecar` (pending.py:208-230).  Each field is optional because the
loader accesses them with `data.get(key, default)`.  The `version` field is
written by `save` but never read. -/
structure SidecarDoc where
  version : Option Nat
  source_url : Option String
  output_stem : Option String
  pending : Option (List String)
  created : Option String
deriving DecidableEq, Repr

/-- On-disk content of a sidecar path: either a JSON object (`valid`) or
anything that makes `_load_sidecar` return `None` — unreadable bytes, invalid
JSON, or a JSON document that is not an object (pending.py:214-223). -/
inductive SidecarContent where
  | valid (doc : SidecarDoc)
  | invalid
deriving DecidableEq, Repr

/-- Embeds `pending.PendingFile` (pending.py:48-58): in-memory sidecar record.
`audio_file` is the path string of the corresponding audio file. -/
structure PendingFile where
  source_url : String
  output_stem : String
  audio_file : String
  pending : List String
  created : String
deriving DecidableEq, Repr

/-- Embeds `PendingFile.save` (pending.py:75-87): the JSON payload written to disk
(version, source_url, output_stem, pending, created). -/
def PendingFile.save (pf : PendingFile) : SidecarContent :=
  .valid
    { version := some 1
      source_url := some pf.source_url
      output_stem := some pf.output_stem
      pending := some pf.pending
      created := some pf.created }

/-- Embeds `pending._load_sidecar` (pending.py:208-230).  Parse errors and non-object
documents yield `none` (the Python code catches them and returns `None`);
missing fields fall back to the `data.get` defaults, with `audio_file.stem`
(`audio_stem` here) as the default output stem. -/
def load_sidecar (content : SidecarContent) (audio_file audio_stem : String) :
    Option PendingFile :=
  match content with
  | .invalid => none
  | .valid data =>
      some
        { source_url := data.source_url.getD ""
          output_stem := data.output_stem.getD audio_stem
          audio_file := audio_file
          pending := data.pending.getD []
          created := data.created.getD "" }

/-- The merge loop of `write_pending` (pending.py:144-146):
`for t in tasks: if t not in existing.pending: existing.pending.append(t)`.
Each new token is checked against the list as mutated so far. -/
def mergeTasks (existing : List String) (tasks : List String) : List String :=
  tasks.foldl (fun acc t => if t ∈ acc then acc else acc ++ [t]) existing

/-- Result of `write_pending`: the returned `PendingFile` and the sidecar
content left on disk by the `save()` call. -/
structure WriteResult where
  pf : PendingFile
  disk : SidecarContent
deriving DecidableEq, Repr

/-- Embeds `pending.write_pending` (pending.py:127-163).  `disk` is the sidecar
file's state before the call (`none` = the file does not exist), `now` is the
`datetime.now().isoformat` value used for a freshly created record
(pending.py:56-58). -/
def write_pending (disk : Option SidecarContent) (audio_file audio_stem : String)
    (source_url output_stem : String) (tasks : List String) (now : String) :
    WriteResult :=
  let fresh : PendingFile :=
    { source_url := source_url
      output_stem := output_stem
      audio_file := audio_file
      pending := tasks
      created := now }
  match disk with
  | some content =>
      match load_sidecar content audio_file audio_stem with
      | some existing =>
          let merged := { existing with pending := mergeTasks existing.pending tasks }
          ⟨merged, merged.save⟩
      | none => ⟨fresh, fresh.save⟩
  | none => ⟨fresh, fresh.save⟩

/-- Embeds `PendingFile.remove_task` (pending.py:89-98).  Returns the updated record
and the resulting on-disk state of the sidecar path (`none` = file deleted).
Python's `list.remove` drops the first occurrence and its `ValueError` (token
absent) is swallowed, which is exactly `List.erase`. -/
def PendingFile.remove_task (pf : PendingFile) (task : String) :
    PendingFile × Option SidecarContent :=
  let pf' := { pf with pending := pf.pending.erase task }
  if pf'.pending = [] then (pf', none) else (pf', some pf'.save)

/-! ## Embedding of `src/ytdlp_wrapper/metadata_cache.py`

`_normalize_url` (metadata_cache.py:106-125) is built on `urllib.parse`
(`urlparse`, `parse_qsl`, `urlencode`, `urlunparse`).  Those stdlib functions
are embedded below, faithful to CPython's `urllib/parse.py` for the URL
fragment the program handles; the only deliberate simplifications are noted in
the doc comments (`%XX` sequences are decoded bytewise rather than through a
UTF-8 decoder, and the IPv6 bracket `ValueError` check of `urlsplit` is
omitted — neither is observable for the ASCII URLs the claims quantify over,
and no proof below unfolds the quoting functions on non-ASCII input). -/

/-- Split a character list at the first occurrence of `sep`
(Python `s.split(sep, 1)` when it returns two parts; `none` when `sep` is
absent). -/
def splitFirstOn (sep : Char) : List Char → Option (List Char × List Char)
  | [] => none
  | c :: rest =>
      if c = sep then some ([], rest)
      else (splitFirstOn sep rest).map fun p => (c :: p.1, p.2)

/-- Python `s.split(sep)` on character lists (all occurrences). -/
def splitOnChar (sep : Char) : List Char → List (List Char)
  | [] => [[]]
  | c :: rest =>
      let r := splitOnChar sep rest
      if c = sep then [] :: r
      else
        match r with
        | h :: t => (c :: h) :: t
        | [] => [[c]]

/-- Value of a hex digit (`unquote`'s `_hextobyte` table). -/
def hexDigitVal (c : Char) : Option Nat :=
  if '0' ≤ c ∧ c ≤ '9' then some (c.toNat - '0'.toNat)
  else if 'a' ≤ c ∧ c ≤ 'f' then some (c.toNat - 'a'.toNat + 10)
  else if 'A' ≤ c ∧ c ≤ 'F' then some (c.toNat - 'A'.toNat + 10)
  else none

/-- Percent-decoding core of `urllib.parse.unquote`: each valid `%XX` pair
becomes the character with code `XX`; invalid escapes are kept verbatim.
(CPython assembles the decoded bytes and UTF-8-decodes them; decoding
bytewise agrees with that on ASCII escapes, the only ones the claims use.) -/
def pctDecode : List Char → List Char
  | '%' :: a :: b :: rest =>
      match hexDigitVal a, hexDigitVal b with
      | some x, some y => Char.ofNat (16 * x + y) :: pctDecode rest
      | _, _ => '%' :: pctDecode (a :: b :: rest)
  | c :: rest => c :: pctDecode rest
  | [] => []

/-- Embeds `urllib.parse.unquote_plus` on character lists: `+` → space, then
percent-decode. -/
def unquote_plus (cs : List Char) : List Char :=
  pctDecode (cs.map fun c => if c = '+' then ' ' else c)

/-- Embeds `urllib.parse.parse_qsl(qs, keep_blank_values=True)` (CPython): split the
query on `&`, skip empty chunks, split each chunk at the first `=` (a chunk
without `=` gets an empty value because `keep_blank_values` is set), and
unquote names and values. -/
def parse_qsl (qs : String) : List (String × String) :=
  if qs = "" then []
  else
    (splitOnChar '&' qs.data).filterMap fun nv =>
      if nv = [] then none
      else
        let p :=
          match splitFirstOn '=' nv with
          | some q => q
          | none => (nv, [])
        some (String.mk (unquote_plus p.1), String.mk (unquote_plus p.2))

/-- UTF-8 bytes of a character (what `str.encode('utf-8')` produces per code
point), used by `quote_plus` for characters outside the always-safe set. -/
def utf8Bytes (c : Char) : List Nat :=
  let n := c.toNat
  if n < 0x80 then [n]
  else if n < 0x800 then [0xC0 + n / 0x40, 0x80 + n % 0x40]
  else if n < 0x10000 then
    [0xE0 + n / 0x1000, 0x80 + n / 0x40 % 0x40, 0x80 + n % 0x40]
  else
    [0xF0 + n / 0x40000, 0x80 + n / 0x1000 % 0x40, 0x80 + n / 0x40 % 0x40,
      0x80 + n % 0x40]

/-- Uppercase hex digit. -/
def hexUpper (n : Nat) : Char :=
  if n < 10 then Char.ofNat ('0'.toNat + n) else Char.ofNat ('A'.toNat + n - 10)

/-- Embeds `urllib.parse.quote_plus(s, safe='')` applied characterwise: ASCII
alphanumerics and `_.-~` pass through, space becomes `+`, everything else is
percent-encoded from its UTF-8 bytes with uppercase hex. -/
def quoteCharPlus (c : Char) : String :=
  if c.isAlphanum ∨ c = '_' ∨ c = '.' ∨ c = '-' ∨ c = '~' then String.singleton c
  else if c = ' ' then "+"
  else String.mk ((utf8Bytes c).flatMap fun b => ['%', hexUpper (b / 16), hexUpper (b % 16)])

/-- Embeds `urllib.parse.quote_plus` with empty `safe`, the quoting function
`urlencode` applies to every name and value. -/
def quote_plus (s : String) : String :=
  String.join (s.data.map quoteCharPlus)

/-- Embeds `urllib.parse.urlencode(query)` with the default `quote_via=quote_plus`:
`'&'.join(f"{quote_plus(k)}={quote_plus(v)}")`. -/
def urlencode (query : List (String × String)) : String :=
  String.intercalate "&" (query.map fun kv => quote_plus kv.1 ++ "=" ++ quote_plus kv.2)

/-- The six components of `urllib.parse.urlparse`'s result. -/
@[ext]
structure ParseResult where
  scheme : String
  netloc : String
  path : String
  params : String
  query : String
  fragment : String
deriving DecidableEq, Repr

/-- Characters allowed after the first in a URL scheme
(`urllib.parse.scheme_chars`). -/
def schemeChar (c : Char) : Bool :=
  c.isAlphanum || c = '+' || c = '-' || c = '.'

/-- The scheme-splitting step of `urlsplit`: a leading
`alpha (alnum|+|-|.)* :` prefix is recognised as the (lowercased) scheme. -/
def pySplitScheme (cs : List Char) : List Char × List Char :=
  match splitFirstOn ':' cs with
  | some p =>
      if p.1 ≠ [] ∧ (cs.headD ' ').isAlpha ∧ p.1.all schemeChar then
        (p.1.map Char.toLower, p.2)
      else ([], cs)
  | none => ([], cs)

/-- Embeds `urllib.parse._splitnetloc`: the netloc extends to the first `/`, `?` or
`#`. -/
def spanNetloc : List Char → List Char × List Char
  | [] => ([], [])
  | c :: rest =>
      if c = '/' ∨ c = '?' ∨ c = '#' then ([], c :: rest)
      else
        let p := spanNetloc rest
        (c :: p.1, p.2)

/-- Embeds `urllib.parse.urlsplit` (without the IPv6-bracket `ValueError` check):
strip `\t\r\n`, split off scheme, `//netloc`, fragment (first `#`), and query
(first `?`); `params` is left empty at this stage. -/
def pyUrlsplit (url : String) : ParseResult :=
  let cs := url.data.filter fun c => ¬ (c = '\t' ∨ c = '\r' ∨ c = '\n')
  let s := pySplitScheme cs
  let n :=
    if s.2.take 2 = ['/', '/'] then spanNetloc (s.2.drop 2) else ([], s.2)
  let f :=
    match splitFirstOn '#' n.2 with
    | some p => p
    | none => (n.2, [])
  let q :=
    match splitFirstOn '?' f.1 with
    | some p => p
    | none => (f.1, [])
  { scheme := String.mk s.1
    netloc := String.mk n.1
    path := String.mk q.1
    params := ""
    query := String.mk q.2
    fragment := String.mk f.2 }

/-- Embeds `urllib.parse.uses_params`: schemes for which `urlparse` splits path
parameters at `;`. -/
def usesParams : List String :=
  ["", "ftp", "hdl", "prospero", "http", "imap", "https", "shttp", "rtsp",
    "rtsps", "rtspu", "sip", "sips", "mms", "sftp", "tel"]

/-- Embeds `urllib.parse._splitparams`: split the path at the first `;` occurring in
its last `/`-separated segment. -/
def pySplitParams (cs : List Char) : List Char × List Char :=
  let searchStart :=
    match cs.reverse.findIdx? (· = '/') with
    | some ridx => cs.length - 1 - ridx
    | none => 0
  match (cs.drop searchStart).findIdx? (· = ';') with
  | some j => (cs.take (searchStart + j), cs.drop (searchStart + j + 1))
  | none => (cs, [])

/-- Embeds `urllib.parse.urlparse`: `urlsplit` plus the params split for schemes in
`uses_params`. -/
def pyUrlparse (url : String) : ParseResult :=
  let r := pyUrlsplit url
  if r.scheme ∈ usesParams ∧ r.path.data.contains ';' then
    let p := pySplitParams r.path.data
    { r with path := String.mk p.1, params := String.mk p.2 }
  else r

/-- Embeds `urllib.parse.urlunparse` (via `urlunsplit`): reassemble the six
components. -/
def pyUrlunparse (p : ParseResult) : String :=
  let url0 := if p.params ≠ "" then p.path ++ ";" ++ p.params else p.path
  let url1 :=
    if p.netloc ≠ "" ∨ (url0 ≠ "" ∧ url0.data.take 2 = ['/', '/']) then
      "//" ++ p.netloc ++
        (if url0 ≠ "" ∧ url0.data.take 1 ≠ ['/'] then "/" ++ url0 else url0)
    else url0
  let url2 := if p.scheme ≠ "" then p.scheme ++ ":" ++ url1 else url1
  let url3 := if p.query ≠ "" then url2 ++ "?" ++ p.query else url2
  if p.fragment ≠ "" then url3 ++ "#" ++ p.fragment else url3

/-- The tracking/session query parameters dropped by `_normalize_url`
(metadata_cache.py:110-118). -/
def ignoredTrackingParams : List String :=
  ["si", "utm_source", "utm_medium", "utm_campaign", "utm_term", "utm_content",
    "feature"]

/-- Embeds `metadata_cache._normalize_url` (metadata_cache.py:106-125): parse the
URL; if it has no query return it verbatim; otherwise drop the ignored query
parameters (with `keep_blank_values=True`) and reserialize. -/
def normalize_url (url : String) : String :=
  let parsed := pyUrlparse url
  if parsed.query = "" then url
  else
    let query :=
      (parse_qsl parsed.query).filter fun kv => ¬ kv.1 ∈ ignoredTrackingParams
    pyUrlunparse { parsed with query := urlencode query }

/-- Embeds `metadata_cache._hash_url` (metadata_cache.py:102-103) models
`hashlib.sha256(url.encode("utf-8")).hexdigest()`, an external library call:
a fixed deterministic (and, for all practical purposes, injective) function
of the URL string.  The claims rely only on it being a function of its
argument, so the identity serves as the model. -/
def hash_url (url : String) : String := url

/-- Embeds `MetadataCache.cache_path` (metadata_cache.py:27-29):
`cache_dir / f"{_hash_url(_normalize_url(url))}.json"`. -/
def cache_path (cache_dir : String) (url : String) : String :=
  cache_dir ++ "/" ++ hash_url (normalize_url url) ++ ".json"

/-! ## Embedding of `src/ytdlp_wrapper/sponsorblock_local.py` -/

/-- Embeds `sponsorblock_local.ACTION_SKIP` (sponsorblock_local.py:32). -/
def ACTION_SKIP : String := "skip"

/-- Embeds `sponsorblock_local.ACTION_MUTE` (sponsorblock_local.py:35). -/
def ACTION_MUTE : String := "mute"

/-- One entry of the JSON array returned by the SponsorBlock API, as accessed
by `fetch_segments` (sponsorblock_local.py:142-156): `item.get("actionType",
"")` (a missing key is the empty string) and `item.get("segment", [])`, whose
entries are `none` when `float(...)` would raise `TypeError`/`ValueError`. -/
structure RawSegmentItem where
  actionType : String
  segment : List (Option ℚ)
deriving DecidableEq, Repr

/-- A parsed sponsor segment `(start, end, action_type)`
(sponsorblock_local.py:45). -/
structure Segment where
  start : ℚ
  stop : ℚ
  action : String
deriving DecidableEq, Repr

/-- Outcome of the `urllib.request.urlopen` call inside `fetch_segments`:
a parsed JSON body, an `HTTPError` with a status code, or an `OSError`-style
network failure. -/
inductive ApiResponse where
  | success (body : List RawSegmentItem)
  | httpError (code : Nat)
  | networkError
deriving DecidableEq, Repr

/-- The exceptions `fetch_segments` lets escape to its caller. -/
inductive FetchError where
  | httpError (code : Nat)
  | networkError
deriving DecidableEq, Repr

/-- The filtering/ordering loop of `fetch_segments`
(sponsorblock_local.py:141-159): keep only `skip`/`mute` items with at least
two numeric endpoints and `end > start`, then stable-sort by start time. -/
def processSegments (data : List RawSegmentItem) : List Segment :=
  let segments := data.filterMap fun item =>
    if ¬ (item.actionType = ACTION_SKIP ∨ item.actionType = ACTION_MUTE) then none
    else
      match item.segment with
      | some s :: some e :: _ =>
          if e ≤ s then none else some ⟨s, e, item.actionType⟩
      | _ => none
  segments.mergeSort fun a b => a.start ≤ b.start

/-- Embeds `sponsorblock_local.fetch_segments` (sponsorblock_local.py:81-167) as a
function of the HTTP outcome: a 404 response is converted to the empty list
(sponsorblock_local.py:132-137); any other `HTTPError` is re-raised
(sponsorblock_local.py:138-139); network errors are not caught at all. -/
def fetch_segments (resp : ApiResponse) : Except FetchError (List Segment) :=
  match resp with
  | .success body => .ok (processSegments body)
  | .httpError code =>
      if code = 404 then .ok [] else .error (.httpError code)
  | .networkError => .error .networkError

/-- One entry of the ffmpeg `-af` filter graph built by
`remove_segments_ffmpeg` (sponsorblock_local.py:209-226), kept structural
instead of interpolating floats into a string:
`aselectCut skips` stands for `aselect='between(t,s1,e1)+...==0',asetpts=N/SR/TB`
and `volumeMute s e` for `volume=0:enable='between(t,s,e)'`. -/
inductive FfmpegFilter where
  | aselectCut (skips : List (ℚ × ℚ))
  | volumeMute (s e : ℚ)
deriving DecidableEq, Repr

/-- Filter construction of `remove_segments_ffmpeg`
(sponsorblock_local.py:206-226). -/
def build_filters (segments : List Segment) : List FfmpegFilter :=
  let skip_segs := (segments.filter fun g => g.action = ACTION_SKIP).map fun g => (g.start, g.stop)
  let mute_segs := (segments.filter fun g => g.action = ACTION_MUTE).map fun g => (g.start, g.stop)
  (if skip_segs ≠ [] then [FfmpegFilter.aselectCut skip_segs] else []) ++
    mute_segs.map fun p => FfmpegFilter.volumeMute p.1 p.2

/-- Observable outcome of `remove_segments_ffmpeg`
(sponsorblock_local.py:175-281): the audio file's final contents, whether the
temporary file is still on disk afterwards, whether an external ffmpeg
process was started, whether a `RuntimeError` escaped, and the filter graph
passed to ffmpeg (empty when no process ran). -/
structure SegmentEditResult where
  audio : String
  tempLeft : Bool
  invokedFfmpeg : Bool
  raisedError : Bool
  filters : List FfmpegFilter
deriving DecidableEq, Repr

/-- Embeds `sponsorblock_local.remove_segments_ffmpeg`
(sponsorblock_local.py:175-281).  `audio` is the current contents of
`audio_file`; `exitCode` is the ffmpeg process's return code and `transcoded`
the contents the process writes into the temporary file on success.  The
embedding follows the source's control flow: empty segment list → immediate
return (line 203-204); non-zero exit → `RuntimeError` raised, with the
`finally` block unlinking the temporary file (lines 258-264, 274-280);
zero exit → `shutil.move` replaces the original and the `finally` block sees
`tmp_path is None` (lines 266-267). -/
def remove_segments_ffmpeg (audio : String) (segments : List Segment)
    (exitCode : Int) (transcoded : String) : SegmentEditResult :=
  if segments = [] then
    { audio := audio, tempLeft := false, invokedFfmpeg := false,
      raisedError := false, filters := [] }
  else
    let filters := build_filters segments
    if exitCode ≠ 0 then
      { audio := audio, tempLeft := false, invokedFfmpeg := true,
        raisedError := true, filters := filters }
    else
      { audio := transcoded, tempLeft := false, invokedFfmpeg := true,
        raisedError := false, filters := filters }

/-! ## Embedding of `src/ytdlp_wrapper/downloader.py`

`download_job` (downloader.py:871-983) and `download_url`
(downloader.py:986-1066) are imperative and effectful; they are embedded as
functions producing the ordered list of observable actions/events the Python
code performs, one constructor per side-effecting statement. -/

/-- Embeds `downloader._SPONSORBLOCK_API_ERROR_PHRASE` (downloader.py:42). -/
def SPONSORBLOCK_API_ERROR_PHRASE : String :=
  "Unable to communicate with SponsorBlock API"

/-- Python's `needle in haystack` substring test, on character lists. -/
def containsSubstring (needle : List Char) : List Char → Bool
  | [] => needle.isEmpty
  | c :: rest =>
      needle.isPrefixOf (c :: rest) || containsSubstring needle rest

/-- Embeds `downloader._is_sponsorblock_api_error` (downloader.py:1757-1764):
`any(phrase in line for line in last_lines)`. -/
def is_sponsorblock_api_error (lastLines : List String) : Bool :=
  lastLines.any fun line => containsSubstring SPONSORBLOCK_API_ERROR_PHRASE.data line.data

/-- Result of one yt-dlp invocation inside `download_job`'s attempt loop:
the process return code and the retained tail of its output
(downloader.py:913-927). -/
structure AttemptResult where
  returncode : Int
  lastLines : List String
deriving DecidableEq, Repr

/-- The side-effecting statements of `download_job`, in source order.
`sleepBetweenAttempts` is part of the action alphabet so that claims about
inter-attempt sleeps are statable; `download_job` never emits it (there is no
sleep call anywhere in downloader.py:871-983). -/
inductive DlAction where
  | mkdirOutputDir                  -- downloader.py:879
  | logMetadataMismatch             -- downloader.py:884
  | logSkipped                      -- downloader.py:886-890
  | applyTags                       -- downloader.py:895/940/956
  | advanceOverall                  -- downloader.py:896
  | addProgressTask                 -- downloader.py:901
  | logRetryAttempt (attempt : Nat) -- downloader.py:908-912
  | invokeFetch (attempt : Nat)     -- downloader.py:913-927
  | logSuccess                      -- downloader.py:930-934
  | completeProgress                -- downloader.py:941/967
  | writeSidecar (tasks : List String) -- downloader.py:960-966
  | queueSponsorblockRetry          -- downloader.py:969
  | logAttemptError                 -- downloader.py:971-977
  | logFailedAfterRetries           -- downloader.py:978-982
  | sleepBetweenAttempts            -- no corresponding statement exists
  | raiseDownloadError              -- downloader.py:983
deriving DecidableEq, Repr

/-- The truthiness test `job.meta.compilation or job.meta.album_artist`
(downloader.py:894/939/955): `album_artist` is `str | None`, truthy iff a
non-empty string. -/
def tagsWanted (compilation : Bool) (album_artist : Option String) : Bool :=
  compilation || (match album_artist with | some s => s ≠ "" | none => false)

/-- The attempt loop `for attempt in range(1, config.retries + 1)` of
`download_job` (downloader.py:903-983).  `remaining` counts the attempts
still allowed (initially `config.retries`, with `attempt` starting at 1);
when it reaches zero the loop has been exhausted and the post-loop error is
logged and `DownloadError` raised.  `fileOnDisk` models
`find_existing_file(job.output_dir, job.output_stem)` returning a file after
the yt-dlp run; `queueProvided` models `sponsorblock_retry_queue is not
None`; `sbEnabled` models `bool(config.sponsorblock_categories)`. -/
def downloadAttemptLoop (tags sbEnabled fileOnDisk queueProvided : Bool)
    (results : Nat → AttemptResult) : Nat → Nat → List DlAction
  | _, 0 => [.logFailedAfterRetries, .raiseDownloadError]
  | attempt, remaining + 1 =>
      (if attempt > 1 then [.logRetryAttempt attempt] else []) ++
      [.invokeFetch attempt] ++
      let r := results attempt
      if r.returncode = 0 then
        [.logSuccess] ++ (if fileOnDisk && tags then [.applyTags] else []) ++
          [.completeProgress]
      else if is_sponsorblock_api_error r.lastLines then
        (if fileOnDisk && tags then [.applyTags] else []) ++
          (if fileOnDisk && sbEnabled then
            [.writeSidecar [PENDING_TASK_SPONSORBLOCK]] else []) ++
          [.completeProgress] ++
          (if queueProvided && sbEnabled then [.queueSponsorblockRetry] else [])
      else
        .logAttemptError ::
          downloadAttemptLoop tags sbEnabled fileOnDisk queueProvided results
            (attempt + 1) remaining

/-- Embeds `downloader.download_job` (downloader.py:871-983) as the ordered list of
side-effecting actions it performs.  `existingAtStart` models
`find_existing_file` returning a file before any download
(downloader.py:880); `metadataMismatch` models `compare_metadata` returning a
non-`None` mismatch dict (downloader.py:882-884); `retries` is
`config.retries`. -/
def download_job (retries : Nat) (tags sbEnabled : Bool)
    (existingAtStart metadataMismatch fileOnDisk queueProvided : Bool)
    (results : Nat → AttemptResult) : List DlAction :=
  .mkdirOutputDir ::
    (if existingAtStart then
      (if metadataMismatch then [.logMetadataMismatch] else []) ++
        [.logSkipped] ++ (if tags then [.applyTags] else []) ++ [.advanceOverall]
    else
      .addProgressTask ::
        downloadAttemptLoop tags sbEnabled fileOnDisk queueProvided results 1 retries)

/-- The run-level events of `download_url` (downloader.py:986-1066), in
source order. -/
inductive RunEvent where
  | fetchMetadata                 -- downloader.py:988-993
  | scrubArchive                  -- downloader.py:1003
  | jobTerminal (k : Nat)         -- job k finished inside the pool (1006-1028)
  | writeM3u                      -- downloader.py:1029-1030
  | sponsorblockRetryPass         -- downloader.py:1036-1063
  | raiseFirstError               -- downloader.py:1065-1066
deriving DecidableEq, Repr

/-- Embeds `downloader.download_url` (downloader.py:986-1066) as an event trace.
The jobs run concurrently inside the `ThreadPoolExecutor` block
(downloader.py:1006-1028), so their terminal events appear in an arbitrary
order `jobEvents`; the `with` block joins every worker before control moves
on, hence everything after `jobEvents` is sequenced after every job.
`hasM3u` models `jobs and jobs[0].m3u_path` (downloader.py:1029),
`sbQueueNonempty` models a non-empty `sponsorblock_retry_queue`
(downloader.py:1036) and `anyFailed` models a captured `download_error`
(downloader.py:1065). -/
def download_url_trace (jobEvents : List RunEvent)
    (hasM3u sbQueueNonempty anyFailed : Bool) : List RunEvent :=
  .fetchMetadata :: (.scrubArchive :: (jobEvents ++
    ((if hasM3u then [.writeM3u] else []) ++
      ((if sbQueueNonempty then [.sponsorblockRetryPass] else []) ++
        (if anyFailed then [.raiseFirstError] else [])))))

/-! ### Properties of the sidecar merge -/

theorem mergeTasks_nil (l : List String) : mergeTasks l [] = l := rfl

theorem mergeTasks_cons (l : List String) (t : String) (ts : List String) :
    mergeTasks l (t :: ts) = mergeTasks (if t ∈ l then l else l ++ [t]) ts := by
  simp only [mergeTasks, List.foldl_cons]

theorem mem_mergeTasks (x : String) (ts : List String) :
    ∀ l : List String, x ∈ mergeTasks l ts ↔ x ∈ l ∨ x ∈ ts := by
  induction ts with
  | nil => intro l; simp [mergeTasks_nil]
  | cons t ts ih =>
      intro l
      rw [mergeTasks_cons]
      by_cases h : t ∈ l
      · simp only [if_pos h, ih]
        constructor
        · rintro (hx | hx)
          · exact Or.inl hx
          · exact Or.inr (List.mem_cons_of_mem _ hx)
        · rintro (hx | hx)
          · exact Or.inl hx
          · rcases List.mem_cons.mp hx with rfl | hx
            · exact Or.inl h
            · exact Or.inr hx
      · simp only [if_neg h, ih, List.mem_append, List.mem_singleton, List.mem_cons]
        tauto

theorem nodup_mergeTasks (ts : List String) :
    ∀ l : List String, l.Nodup → (mergeTasks l ts).Nodup := by
  induction ts with
  | nil => intro l hl; simpa [mergeTasks_nil] using hl
  | cons t ts ih =>
      intro l hl
      rw [mergeTasks_cons]
      by_cases h : t ∈ l
      · rw [if_pos h]; exact ih l hl
      · rw [if_neg h]
        refine ih _ ?_
        simp [List.nodup_append, hl, h]

theorem mergeTasks_eq_self (ts : List String) :
    ∀ l : List String, (∀ t ∈ ts, t ∈ l) → mergeTasks l ts = l := by
  induction ts with
  | nil => intro l _; exact mergeTasks_nil l
  | cons t ts ih =>
      intro l hall
      rw [mergeTasks_cons, if_pos (hall t (List.mem_cons_self t ts))]
      exact ih l fun x hx => hall x (List.mem_cons_of_mem _ hx)

/-! ### Claim C6 — `write_pending` as an idempotent deduplicating merge -/

/-- C6 counterexample: the claim fails as stated.  For an audio file whose
existing parsable sidecar already holds a duplicated token (`["x", "x"]`),
`write_pending` with task list `["y"]` stores `["x", "x", "y"]`: the token
`"x"` appears twice, not exactly once — the merge loop (pending.py:144-146)
deduplicates new tokens against the list but never deduplicates the existing
list itself. -/
theorem write_pending_duplicate_counterexample :
    (write_pending
        (some (.valid ⟨some 1, some "u", some "s", some ["x", "x"], some "c"⟩))
        "a.opus" "a" "u2" "s2" ["y"] "c2").pf.pending = ["x", "x", "y"] ∧
    ¬ (write_pending
        (some (.valid ⟨some 1, some "u", some "s", some ["x", "x"], some "c"⟩))
        "a.opus" "a" "u2" "s2" ["y"] "c2").pf.pending.count "x" = 1 := by
  decide

/-- C6 (amended): for every audio file with an existing parsable sidecar
whose stored pending list is duplicate-free, `write_pending` stores the union
of existing and new tokens with each token exactly once, preserves the
original `source_url` and `created` timestamp, writes exactly that record to
disk, and calling it a second time with the same task list leaves the stored
pending list unchanged (so the token stays present exactly once). -/
theorem write_pending_merge_spec (doc : SidecarDoc)
    (af as su os su2 os2 now now2 : String) (tasks : List String)
    (hnodup : (doc.pending.getD []).Nodup) :
    ∃ r : WriteResult,
      write_pending (some (.valid doc)) af as su os tasks now = r ∧
      r.pf.pending.Nodup ∧
      (∀ t, t ∈ r.pf.pending ↔ t ∈ doc.pending.getD [] ∨ t ∈ tasks) ∧
      (∀ t ∈ tasks, r.pf.pending.count t = 1) ∧
      r.pf.source_url = doc.source_url.getD "" ∧
      r.pf.created = doc.created.getD "" ∧
      r.disk = r.pf.save ∧
      (write_pending (some r.disk) af as su2 os2 tasks now2).pf.pending =
        r.pf.pending := by
  refine ⟨_, rfl, ?_, ?_, ?_, rfl, rfl, rfl, ?_⟩
  · exact nodup_mergeTasks tasks _ hnodup
  · intro t; exact mem_mergeTasks t tasks _
  · intro t ht
    exact List.count_eq_one_of_mem (nodup_mergeTasks tasks _ hnodup)
      ((mem_mergeTasks t tasks _).mpr (Or.inr ht))
  · show mergeTasks (mergeTasks (doc.pending.getD []) tasks) tasks = _
    exact mergeTasks_eq_self tasks _ fun t ht =>
      (mem_mergeTasks t tasks _).mpr (Or.inr ht)

/-- C6 witness: a sidecar already holding `"sponsorblock"` written again with
`["sponsorblock"]` contains the token exactly once. -/
theorem write_pending_merge_spec_witness :
    (write_pending
        (some (.valid ⟨some 1, some "u", some "s", some ["sponsorblock"], some "c"⟩))
        "a.opus" "a" "u2" "s2" ["sponsorblock"] "c2").pf.pending.count
      "sponsorblock" = 1 := by
  obtain ⟨r, hr, _, _, hcount, _⟩ :=
    write_pending_merge_spec ⟨some 1, some "u", some "s", some ["sponsorblock"], some "c"⟩
      "a.opus" "a" "u2" "s2" "u3" "s3" "c2" "c3" ["sponsorblock"] (by decide)
  rw [hr]
  exact hcount _ (by decide)

/-! ### Claim C7 — `remove_task` deletes the emptied sidecar -/

/-- C7: `remove_task` on a sidecar's last remaining token deletes the sidecar
file from disk (no empty-shell file remains); on a non-last token the sidecar
stays on disk holding exactly the remaining tokens. -/
theorem remove_task_spec (pf : PendingFile) (t : String) :
    (pf.pending = [t] → (pf.remove_task t).2 = none) ∧
    (pf.pending.erase t ≠ [] →
      (pf.remove_task t).1.pending = pf.pending.erase t ∧
      (pf.remove_task t).2 = some ((pf.remove_task t).1.save)) := by
  constructor
  · intro h
    simp [PendingFile.remove_task, h]
  · intro h
    simp [PendingFile.remove_task, h]

/-- C7 witness: removing the sole `"sponsorblock"` token deletes the sidecar;
removing `"a"` from `["a", "b"]` keeps it on disk with `["b"]`. -/
theorem remove_task_spec_witness :
    (PendingFile.remove_task ⟨"u", "s", "a.opus", ["sponsorblock"], "c"⟩
        "sponsorblock").2 = none ∧
    (PendingFile.remove_task ⟨"u", "s", "a.opus", ["a", "b"], "c"⟩ "a").1.pending
      = ["b"] := by
  constructor
  · exact (remove_task_spec ⟨"u", "s", "a.opus", ["sponsorblock"], "c"⟩
      "sponsorblock").1 (by decide)
  · exact ((remove_task_spec ⟨"u", "s", "a.opus", ["a", "b"], "c"⟩ "a").2
      (by decide)).1

/-! ### Claim C10 — unparsable sidecars are overwritten, not merged -/

/-- C10: when the sidecar exists but is unparsable, `write_pending` raises
nothing (`_load_sidecar` catches the parse error and returns `None`,
pending.py:214-223, so no exceptional outcome exists) and overwrites the file
with a fresh record whose pending list is exactly the supplied task list and
whose `source_url`/`created` are the new values. -/
theorem write_pending_unparsable_overwrites (af as su os now : String)
    (tasks : List String) :
    write_pending (some .invalid) af as su os tasks now =
      ⟨⟨su, os, af, tasks, now⟩,
        .valid ⟨some 1, some su, some os, some tasks, some now⟩⟩ := rfl

/-! ### Claim C8 — `fetch_segments` error classification -/

/-- C8: `fetch_segments` returns an empty list (not an error) on a 404
response, and propagates every other HTTP error and every network failure to
the caller. -/
theorem fetch_segments_error_spec :
    fetch_segments (.httpError 404) = .ok [] ∧
    (∀ c, c ≠ 404 → fetch_segments (.httpError c) = .error (.httpError c)) ∧
    fetch_segments .networkError = .error .networkError := by
  refine ⟨rfl, ?_, rfl⟩
  intro c hc
  simp [fetch_segments, hc]

/-- C8 witness: a 500 response is raised to the caller. -/
theorem fetch_segments_error_spec_witness :
    fetch_segments (.httpError 500) = .error (.httpError 500) :=
  fetch_segments_error_spec.2.1 500 (by decide)

/-! ### Claim C9 — `remove_segments_ffmpeg` atomicity -/

/-- C9: with an empty segment list `remove_segments_ffmpeg` is a no-op (no
external process, audio bytes unchanged, nothing raised); with a non-empty
list the original is replaced only when the transcode exits successfully — on
failure the original contents are untouched, no temporary artifact remains,
and an error is raised. -/
theorem remove_segments_ffmpeg_spec (audio transcoded : String)
    (segments : List Segment) (ec : Int) :
    remove_segments_ffmpeg audio [] ec transcoded =
      ⟨audio, false, false, false, []⟩ ∧
    (segments ≠ [] → ec ≠ 0 →
      remove_segments_ffmpeg audio segments ec transcoded =
        ⟨audio, false, true, true, build_filters segments⟩) ∧
    (segments ≠ [] → ec = 0 →
      remove_segments_ffmpeg audio segments ec transcoded =
        ⟨transcoded, false, true, false, build_filters segments⟩) := by
  refine ⟨rfl, ?_, ?_⟩
  · intro hs he
    simp [remove_segments_ffmpeg, hs, he]
  · intro hs he
    simp [remove_segments_ffmpeg, hs, he]

/-- C9 witness: a failed transcode of one skip segment leaves the original
contents in place, leaves no temporary file, and reports the error. -/
theorem remove_segments_ffmpeg_spec_witness :
    remove_segments_ffmpeg "orig" [⟨1, 2, ACTION_SKIP⟩] 1 "new" =
      ⟨"orig", false, true, true, build_filters [⟨1, 2, ACTION_SKIP⟩]⟩ :=
  (remove_segments_ffmpeg_spec "orig" "new" [⟨1, 2, ACTION_SKIP⟩] 1).2.1
    (by decide) (by decide)

/-! ### Claim C1 — ordering of scrub, jobs and playlist rewrite -/

/-- C1 counterexample: the claim fails as stated.  In a one-job run the trace
of `download_url` is `[fetchMetadata, scrubArchive, jobTerminal 0, writeM3u]`:
the only archive-scrub event sits at index 1, strictly *before* the job's
terminal event at index 2 (and no scrub occurs later), because
`scrub_archive` is invoked at downloader.py:1003, before the worker pool is
even created. -/
theorem scrub_before_jobs_counterexample :
    download_url_trace [.jobTerminal 0] true false false =
      [.fetchMetadata, .scrubArchive, .jobTerminal 0, .writeM3u] ∧
    (download_url_trace [.jobTerminal 0] true false false).findIdx
        (· == RunEvent.scrubArchive) = 1 ∧
    (download_url_trace [.jobTerminal 0] true false false).findIdx
        (· == RunEvent.jobTerminal 0) = 2 ∧
    RunEvent.scrubArchive ∉ (download_url_trace [.jobTerminal 0] true false false).drop 2 := by
  decide

/-- C1 (amended): in a run started by `download_url`, the archive scrub
executes strictly *before* every job of the run reaches a terminal state (it
runs before the worker pool starts), and the playlist-listing rewrite
executes strictly after every job's terminal event — hence strictly after the
scrub.  Formally: the scrub is at index 1 of the run trace, the rewrite at
index `jobEvents.length + 2`, and no job-terminal event occurs at or before
index 1 or at or after index `jobEvents.length + 2`. -/
theorem scrub_then_jobs_then_m3u (jobEvents : List RunEvent) (sb af : Bool) :
    (download_url_trace jobEvents true sb af)[1]? = some .scrubArchive ∧
    (download_url_trace jobEvents true sb af)[jobEvents.length + 2]? =
      some .writeM3u ∧
    (∀ e ∈ (download_url_trace jobEvents true sb af).take 2,
      ∀ k, e ≠ .jobTerminal k) ∧
    (∀ e ∈ (download_url_trace jobEvents true sb af).drop (jobEvents.length + 2),
      ∀ k, e ≠ .jobTerminal k) := by
  have ht : download_url_trace jobEvents true sb af =
      RunEvent.fetchMetadata :: (RunEvent.scrubArchive :: (jobEvents ++
        ([RunEvent.writeM3u] ++
          ((if sb then [RunEvent.sponsorblockRetryPass] else []) ++
            (if af then [RunEvent.raiseFirstError] else []))))) := rfl
  refine ⟨?_, ?_, ?_, ?_⟩
  · rw [ht]
    simp
  · rw [ht, show jobEvents.length + 2 = (jobEvents.length + 1) + 1 from rfl,
      List.getElem?_cons_succ, List.getElem?_cons_succ,
      List.getElem?_append_right (Nat.le_refl _)]
    simp
  · intro e he k
    rw [ht] at he
    simp only [List.take_succ_cons, List.take_zero, List.mem_cons,
      List.not_mem_nil, or_false] at he
    rcases he with rfl | rfl
    · simp
    · simp
  · intro e he k
    rw [ht, show jobEvents.length + 2 = (jobEvents.length + 1) + 1 from rfl,
      List.drop_succ_cons, List.drop_succ_cons, List.drop_left] at he
    have hsub : e = RunEvent.writeM3u ∨ e = RunEvent.sponsorblockRetryPass ∨
        e = RunEvent.raiseFirstError := by
      rcases List.mem_append.mp he with h | h
      · simp at h
        exact Or.inl h
      · rcases List.mem_append.mp h with h | h
        · split at h
          · simp at h
            exact Or.inr (Or.inl h)
          · exact absurd h (List.not_mem_nil e)
        · split at h
          · simp at h
            exact Or.inr (Or.inr h)
          · exact absurd h (List.not_mem_nil e)
    rcases hsub with rfl | rfl | rfl <;> simp

/-- C1 witness: in a concrete two-job run the scrub sits at index 1 and the
playlist rewrite at index 4, bracketing the job terminals. -/
theorem scrub_then_jobs_then_m3u_witness :
    (download_url_trace [.jobTerminal 0, .jobTerminal 1] true true false)[1]? =
      some RunEvent.scrubArchive ∧
    (download_url_trace [.jobTerminal 0, .jobTerminal 1] true true false)[4]? =
      some RunEvent.writeM3u := by
  have h := scrub_then_jobs_then_m3u [.jobTerminal 0, .jobTerminal 1] true false
  exact ⟨h.1, h.2.1⟩

/-! ### Claims C2/C3 — the attempt loop of `download_job` -/

/-- One unfolding step of the attempt loop (the body of the Python `for`
statement at downloader.py:903). -/
theorem downloadAttemptLoop_succ (tags sb fd qp : Bool)
    (results : Nat → AttemptResult) (attempt n : Nat) :
    downloadAttemptLoop tags sb fd qp results attempt (n + 1) =
      (if attempt > 1 then [.logRetryAttempt attempt] else []) ++
      [.invokeFetch attempt] ++
      (if (results attempt).returncode = 0 then
        [.logSuccess] ++ (if fd && tags then [.applyTags] else []) ++
          [.completeProgress]
      else if is_sponsorblock_api_error (results attempt).lastLines then
        (if fd && tags then [.applyTags] else []) ++
          (if fd && sb then [.writeSidecar [PENDING_TASK_SPONSORBLOCK]] else []) ++
          [.completeProgress] ++
          (if qp && sb then [.queueSponsorblockRetry] else [])
      else
        .logAttemptError ::
          downloadAttemptLoop tags sb fd qp results (attempt + 1) n) := rfl

/-- Helper for C2: if every attempt before `a` fails hard and attempt `a`
fails with the SponsorBlock signature, the loop started anywhere at or before
`a` (with `a` within its budget) performs the soft-fail side effects and
never raises. -/
theorem downloadAttemptLoop_soft (results : Nat → AttemptResult) (a : Nat)
    (hc0 : (results a).returncode ≠ 0)
    (hc : is_sponsorblock_api_error (results a).lastLines = true) :
    ∀ remaining attempt, attempt ≤ a → a < attempt + remaining →
      (∀ k, attempt ≤ k → k < a → (results k).returncode ≠ 0 ∧
        is_sponsorblock_api_error (results k).lastLines = false) →
      (DlAction.applyTags ∈ downloadAttemptLoop true true true true results attempt remaining ∧
        DlAction.writeSidecar [PENDING_TASK_SPONSORBLOCK] ∈
          downloadAttemptLoop true true true true results attempt remaining ∧
        DlAction.queueSponsorblockRetry ∈
          downloadAttemptLoop true true true true results attempt remaining ∧
        DlAction.raiseDownloadError ∉
          downloadAttemptLoop true true true true results attempt remaining) := by
  intro remaining
  induction remaining with
  | zero => intro attempt h1 h2 _; omega
  | succ n ih =>
      intro attempt h1 h2 hprev
      rcases Nat.eq_or_lt_of_le h1 with rfl | hlt
      · rw [downloadAttemptLoop_succ, if_neg hc0, if_pos hc]
        refine ⟨?_, ?_, ?_, ?_⟩ <;> by_cases h : attempt > 1 <;> simp [h]
      · have hhard := hprev attempt (Nat.le_refl _) hlt
        obtain ⟨m1, m2, m3, m4⟩ := ih (attempt + 1) hlt (by omega)
          (fun k hk1 hk2 => hprev k (by omega) hk2)
        rw [downloadAttemptLoop_succ, if_neg hhard.1, hhard.2]
        refine ⟨?_, ?_, ?_, ?_⟩ <;> by_cases h : attempt > 1 <;>
          simp [h, m1, m2, m3, m4]

/-- C2: if some attempt's yt-dlp run exits non-zero with the SponsorBlock
signature in its retained output (all earlier attempts having failed without
it, so the loop reaches that attempt), `download_job` treats the job as
completed: the compilation tags are applied to the downloaded file, a sidecar
with the `sponsorblock` task is written, the job is appended to the
retry-at-end queue, and no `DownloadError` is raised.  The flags fixed to
`true` are the claim's context: the file is on disk ("the file is still valid
and already on disk"), SponsorBlock categories are configured (the signature
can only appear when `--sponsorblock-remove` was passed), the job's metadata
wants tags, and `download_url` always passes a retry queue
(downloader.py:1008-1016). -/
theorem soft_fail_completes_job (retries : Nat) (metadataMismatch : Bool)
    (results : Nat → AttemptResult) (a : Nat) (ha1 : 1 ≤ a) (ha2 : a ≤ retries)
    (hprev : ∀ k, 1 ≤ k → k < a → (results k).returncode ≠ 0 ∧
      is_sponsorblock_api_error (results k).lastLines = false)
    (hc0 : (results a).returncode ≠ 0)
    (hc : is_sponsorblock_api_error (results a).lastLines = true) :
    DlAction.applyTags ∈
      download_job retries true true false metadataMismatch true true results ∧
    DlAction.writeSidecar [PENDING_TASK_SPONSORBLOCK] ∈
      download_job retries true true false metadataMismatch true true results ∧
    DlAction.queueSponsorblockRetry ∈
      download_job retries true true false metadataMismatch true true results ∧
    DlAction.raiseDownloadError ∉
      download_job retries true true false metadataMismatch true true results := by
  obtain ⟨m1, m2, m3, m4⟩ :=
    downloadAttemptLoop_soft results a hc0 hc retries 1 ha1 (by omega) hprev
  have ht : download_job retries true true false metadataMismatch true true results =
      DlAction.mkdirOutputDir :: DlAction.addProgressTask ::
        downloadAttemptLoop true true true true results 1 retries := rfl
  rw [ht]
  refine ⟨?_, ?_, ?_, ?_⟩ <;> simp [m1, m2, m3, m4]

/-- C2 witness: a job whose first attempt fails hard and whose second attempt
fails with the SponsorBlock signature gets tags, a sidecar and a queue entry,
and raises nothing. -/
theorem soft_fail_completes_job_witness :
    DlAction.writeSidecar [PENDING_TASK_SPONSORBLOCK] ∈
      download_job 3 true true false false true true
        (fun k => if k = 1 then ⟨1, ["ERROR: network"]⟩
          else ⟨1, ["ERROR: Unable to communicate with SponsorBlock API"]⟩) ∧
    DlAction.raiseDownloadError ∉
      download_job 3 true true false false true true
        (fun k => if k = 1 then ⟨1, ["ERROR: network"]⟩
          else ⟨1, ["ERROR: Unable to communicate with SponsorBlock API"]⟩) := by
  have h := soft_fail_completes_job 3 false
    (fun k => if k = 1 then ⟨1, ["ERROR: network"]⟩
      else ⟨1, ["ERROR: Unable to communicate with SponsorBlock API"]⟩)
    2 (by decide) (by decide)
    (by
      intro k hk1 hk2
      have hk : k = 1 := by omega
      subst hk
      exact ⟨by decide, by decide⟩)
    (by decide) (by decide)
  exact ⟨h.2.1, h.2.2.2⟩

/-- C3 counterexample: the claim fails as stated.  With two retries and both
attempts exiting non-zero without the soft-fail signature, the trace shows
the second fetch invocation following the first with no sleep action between
them — there is no backoff sleep anywhere in `download_job`'s attempt loop
(downloader.py:903-983 contains no sleep call; the `--sleep-interval`
arguments at downloader.py:861-862 are passed to yt-dlp itself, not slept by
the wrapper between attempts). -/
theorem retry_no_sleep_counterexample :
    download_job 2 true true false false true true
        (fun _ => ⟨1, ["ERROR: HTTP Error 403"]⟩) =
      [.mkdirOutputDir, .addProgressTask, .invokeFetch 1, .logAttemptError,
        .logRetryAttempt 2, .invokeFetch 2, .logAttemptError,
        .logFailedAfterRetries, .raiseDownloadError] ∧
    DlAction.sleepBetweenAttempts ∉
      download_job 2 true true false false true true
        (fun _ => ⟨1, ["ERROR: HTTP Error 403"]⟩) := by
  decide

/-- Helper for C3: if every attempt in the window fails hard, the loop
invokes the fetch tool for each attempt with no sleep in between, logs the
exhaustion error, and raises. -/
theorem downloadAttemptLoop_allfail (tags sb fd qp : Bool)
    (results : Nat → AttemptResult) :
    ∀ remaining attempt,
      (∀ k, attempt ≤ k → k < attempt + remaining → (results k).returncode ≠ 0 ∧
        is_sponsorblock_api_error (results k).lastLines = false) →
      (DlAction.raiseDownloadError ∈
          downloadAttemptLoop tags sb fd qp results attempt remaining ∧
        DlAction.logFailedAfterRetries ∈
          downloadAttemptLoop tags sb fd qp results attempt remaining ∧
        DlAction.sleepBetweenAttempts ∉
          downloadAttemptLoop tags sb fd qp results attempt remaining ∧
        ∀ k, attempt ≤ k → k < attempt + remaining →
          DlAction.invokeFetch k ∈
            downloadAttemptLoop tags sb fd qp results attempt remaining) := by
  intro remaining
  induction remaining with
  | zero =>
      intro attempt _
      refine ⟨by simp [downloadAttemptLoop], by simp [downloadAttemptLoop],
        by simp [downloadAttemptLoop], ?_⟩
      intro k hk1 hk2
      omega
  | succ n ih =>
      intro attempt hall
      have hhard := hall attempt (Nat.le_refl _) (by omega)
      obtain ⟨m1, m2, m3, m4⟩ := ih (attempt + 1)
        (fun k hk1 hk2 => hall k (by omega) (by omega))
      rw [downloadAttemptLoop_succ, if_neg hhard.1, hhard.2]
      refine ⟨?_, ?_, ?_, ?_⟩
      · by_cases h : attempt > 1 <;> simp [h, m1]
      · by_cases h : attempt > 1 <;> simp [h, m2]
      · by_cases h : attempt > 1 <;> simp [h, m3]
      · intro k hk1 hk2
        rcases Nat.eq_or_lt_of_le hk1 with rfl | hlt
        · by_cases h : attempt > 1 <;> simp [h]
        · have := m4 k hlt (by omega)
          by_cases h : attempt > 1 <;> simp [h, this]

/-- C3 (amended): for every job whose yt-dlp invocations all exit non-zero
without the soft-fail signature, `download_job` loops to the next attempt
*immediately* — the wrapper performs no inter-attempt sleep (pacing is
delegated to the fetch tool's own `--retries`/`--sleep-interval` arguments) —
invoking the tool once per attempt 1..retries; when attempts are exhausted
the error is recorded (`errors.log` append, downloader.py:978-982) and a
`DownloadError` is raised, which `download_url`'s aggregator captures and
re-raises (downloader.py:1019-1028, 1065-1066). -/
theorem retries_exhausted_raises (retries : Nat)
    (tags sb metadataMismatch fd qp : Bool) (results : Nat → AttemptResult)
    (hall : ∀ k, 1 ≤ k → k ≤ retries → (results k).returncode ≠ 0 ∧
      is_sponsorblock_api_error (results k).lastLines = false) :
    DlAction.raiseDownloadError ∈
      download_job retries tags sb false metadataMismatch fd qp results ∧
    DlAction.logFailedAfterRetries ∈
      download_job retries tags sb false metadataMismatch fd qp results ∧
    DlAction.sleepBetweenAttempts ∉
      download_job retries tags sb false metadataMismatch fd qp results ∧
    ∀ k, 1 ≤ k → k ≤ retries →
      DlAction.invokeFetch k ∈
        download_job retries tags sb false metadataMismatch fd qp results := by
  obtain ⟨m1, m2, m3, m4⟩ := downloadAttemptLoop_allfail tags sb fd qp results
    retries 1 (fun k hk1 hk2 => hall k hk1 (by omega))
  have ht : download_job retries tags sb false metadataMismatch fd qp results =
      DlAction.mkdirOutputDir :: DlAction.addProgressTask ::
        downloadAttemptLoop tags sb fd qp results 1 retries := rfl
  rw [ht]
  refine ⟨by simp [m1], by simp [m2], by simp [m3], ?_⟩
  intro k hk1 hk2
  simp [m4 k hk1 (by omega)]

/-- C3 witness: with two always-failing attempts, the job raises after
invoking the tool twice with no sleep in between. -/
theorem retries_exhausted_raises_witness :
    DlAction.raiseDownloadError ∈
      download_job 2 true true false false true true
        (fun _ => ⟨1, ["ERROR: fragment not found"]⟩) ∧
    DlAction.invokeFetch 2 ∈
      download_job 2 true true false false true true
        (fun _ => ⟨1, ["ERROR: fragment not found"]⟩) := by
  have h := retries_exhausted_raises 2 true true false true true
    (fun _ => ⟨1, ["ERROR: fragment not found"]⟩)
    (by
      intro k hk1 hk2
      exact ⟨show (1 : Int) ≠ 0 by decide,
        show is_sponsorblock_api_error ["ERROR: fragment not found"] = false
          by decide⟩)
  exact ⟨h.1, h.2.2.2 2 (by decide) (by decide)⟩

/-! ### Claim C4 — existing output short-circuits the fetch tool -/

/-- C4: for a job whose output file already exists at job start,
`download_job` completes without ever invoking the fetch tool, applies the
compilation tags to the existing file as a repair side effect
(downloader.py:891-895), advances overall progress, and raises nothing. -/
theorem existing_file_short_circuits (retries : Nat)
    (sb metadataMismatch fd qp : Bool) (results : Nat → AttemptResult) :
    (∀ k, DlAction.invokeFetch k ∉
      download_job retries true sb true metadataMismatch fd qp results) ∧
    DlAction.applyTags ∈
      download_job retries true sb true metadataMismatch fd qp results ∧
    DlAction.advanceOverall ∈
      download_job retries true sb true metadataMismatch fd qp results ∧
    DlAction.raiseDownloadError ∉
      download_job retries true sb true metadataMismatch fd qp results := by
  have ht : download_job retries true sb true metadataMismatch fd qp results =
      DlAction.mkdirOutputDir ::
        ((if metadataMismatch then [DlAction.logMetadataMismatch] else []) ++
          [DlAction.logSkipped] ++ [DlAction.applyTags] ++
          [DlAction.advanceOverall]) := by
    show DlAction.mkdirOutputDir ::
        ((if metadataMismatch then [DlAction.logMetadataMismatch] else []) ++
          [DlAction.logSkipped] ++ (if true then [DlAction.applyTags] else []) ++
          [DlAction.advanceOverall]) = _
    simp
  rw [ht]
  refine ⟨?_, ?_, ?_, ?_⟩ <;> first
    | (intro k; by_cases h : metadataMismatch <;> simp [h])
    | by_cases h : metadataMismatch <;> simp [h]

/-- C4 witness: a concrete pre-existing job never invokes the fetch tool and
still gets its repair tag write. -/
theorem existing_file_short_circuits_witness :
    DlAction.invokeFetch 1 ∉
      download_job 3 true true true false true true (fun _ => ⟨0, []⟩) ∧
    DlAction.applyTags ∈
      download_job 3 true true true false true true (fun _ => ⟨0, []⟩) := by
  have h := existing_file_short_circuits 3 true false true true (fun _ => ⟨0, []⟩)
  exact ⟨h.1 1, h.2.1⟩

/-! ### Claim C5 — URLs differing only in tracking parameters share a cache key -/

/-- C5 counterexample: the claim fails as stated.  `"https://x.com/a?"` and
`"https://x.com/a?si=1"` differ only in the tracking parameter `si` (their
parsed components outside the query are identical and their non-tracking
query pairs are both empty), yet `_normalize_url` returns the first URL
verbatim — the early return at metadata_cache.py:108-109 fires because its
parsed query is empty — while the second is re-serialized without its
trailing `?`.  The normalized strings differ, so their (SHA-256) cache keys
and cache paths differ. -/
theorem cache_key_tracking_counterexample :
    (pyUrlparse "https://x.com/a?").scheme = (pyUrlparse "https://x.com/a?si=1").scheme ∧
    (pyUrlparse "https://x.com/a?").netloc = (pyUrlparse "https://x.com/a?si=1").netloc ∧
    (pyUrlparse "https://x.com/a?").path = (pyUrlparse "https://x.com/a?si=1").path ∧
    (pyUrlparse "https://x.com/a?").params = (pyUrlparse "https://x.com/a?si=1").params ∧
    (pyUrlparse "https://x.com/a?").fragment = (pyUrlparse "https://x.com/a?si=1").fragment ∧
    (parse_qsl (pyUrlparse "https://x.com/a?").query).filter
        (fun kv => ¬ kv.1 ∈ ignoredTrackingParams) =
      (parse_qsl (pyUrlparse "https://x.com/a?si=1").query).filter
        (fun kv => ¬ kv.1 ∈ ignoredTrackingParams) ∧
    normalize_url "https://x.com/a?" = "https://x.com/a?" ∧
    normalize_url "https://x.com/a?si=1" = "https://x.com/a" ∧
    cache_path "cache" "https://x.com/a?" ≠ cache_path "cache" "https://x.com/a?si=1" := by
  decide

/-- C5 (amended): for every pair of URLs that differ only in tracking query
parameters *and whose query strings are both non-empty after parsing* (so
neither hits the verbatim early return of metadata_cache.py:108-109),
`MetadataCache` maps both to the same cache key: `cache_path` returns the
same path, hence read and write hit the same entry. -/
theorem cache_key_tracking_invariant (dir u1 u2 : String)
    (hq1 : (pyUrlparse u1).query ≠ "") (hq2 : (pyUrlparse u2).query ≠ "")
    (hscheme : (pyUrlparse u1).scheme = (pyUrlparse u2).scheme)
    (hnetloc : (pyUrlparse u1).netloc = (pyUrlparse u2).netloc)
    (hpath : (pyUrlparse u1).path = (pyUrlparse u2).path)
    (hparams : (pyUrlparse u1).params = (pyUrlparse u2).params)
    (hfrag : (pyUrlparse u1).fragment = (pyUrlparse u2).fragment)
    (htrack : (parse_qsl (pyUrlparse u1).query).filter
        (fun kv => ¬ kv.1 ∈ ignoredTrackingParams) =
      (parse_qsl (pyUrlparse u2).query).filter
        (fun kv => ¬ kv.1 ∈ ignoredTrackingParams)) :
    cache_path dir u1 = cache_path dir u2 := by
  have hnorm : normalize_url u1 = normalize_url u2 := by
    unfold normalize_url
    rw [if_neg hq1, if_neg hq2, htrack]
    exact congrArg pyUrlunparse (by
      refine ParseResult.ext ?_ ?_ ?_ ?_ ?_ ?_ <;>
        simp [hscheme, hnetloc, hpath, hparams, hfrag])
  unfold cache_path hash_url
  rw [hnorm]

/-- C5 witness: two concrete YouTube Music URLs that differ only in their
tracking parameters (`si` vs `feature`) resolve to the same cache path. -/
theorem cache_key_tracking_invariant_witness :
    cache_path "cache" "https://music.youtube.com/watch?v=dQw4w9WgXcQ&si=abc" =
      cache_path "cache" "https://music.youtube.com/watch?v=dQw4w9WgXcQ&feature=share" :=
  cache_key_tracking_invariant "cache"
    "https://music.youtube.com/watch?v=dQw4w9WgXcQ&si=abc"
    "https://music.youtube.com/watch?v=dQw4w9WgXcQ&feature=share"
    (by decide) (by decide) (by decide) (by decide) (by decide) (by decide)
    (by decide) (by decide)

end Ytdl
